import Mathlib

/-!
Shallow embedding of the Streamlit dashboard `src/prueba.py`.

The program loads a flat CSV of university records, filters it by a
year range (inclusive select-slider), an academic-term radio button
(Todos / Spring / Fall) and a department selectbox, and then computes
scalar KPIs, grouped aggregates (pandas `groupby`, default `sort=True`,
so group keys come out in ascending key order), trend labels
(`is_monotonic_increasing`, which in pandas is non-strict), and a CSV
export of the filtered view.

Rows are lists of `Row`; pandas boolean-mask filtering on a DataFrame
is `List.filter`; column sums are sums of mapped lists; `mean` is
sum over length as a rational.  The unguarded numpy division at line
108 of the source (`Admitted.sum() / Applications.sum() * 100`) yields
NaN/inf when the denominator is zero; we embed that value as
`Option ℚ`, `none` standing for the non-finite float.  The guarded
ratios at lines 409 and 416 carry their explicit `if denominator > 0`
tests.
-/

/-- Academic term column: the dataset enum `Spring | Fall`. -/
inductive Term where
  | Spring : Term
  | Fall : Term
deriving DecidableEq, Repr

/-- The term radio button of the sidebar (source lines 41-45):
`Todos`, `Spring (Primavera)`, `Fall (Otono)`. -/
inductive TermOption where
  | todos : TermOption
  | spring : TermOption
  | fall : TermOption
deriving DecidableEq, Repr

/-- The department selectbox of the sidebar (source lines 49-52).
It is read into `dept_option` but the source never uses it afterwards. -/
inductive DeptOption where
  | todosLosDepartamentos : DeptOption
  | ingenieria : DeptOption
  | negocios : DeptOption
  | artes : DeptOption
  | ciencias : DeptOption
deriving DecidableEq, Repr

/-- One CSV row of `university_student_data.csv`: the columns the
source reads.  Counts are naturals, percentage columns are rationals. -/
structure Row where
  year : Int
  term : Term
  applications : Nat
  admitted : Nat
  enrolled : Nat
  retention : ℚ
  satisfaction : ℚ
  engineering : Nat
  business : Nat
  arts : Nat
  science : Nat
deriving DecidableEq, Repr

/-- The user-selected filter state: the slider pair `year_range`,
the radio `term_option` and the selectbox `dept_option`. -/
structure FilterSpec where
  lo : Int
  hi : Int
  termOpt : TermOption
  deptOpt : DeptOption
deriving DecidableEq, Repr

/-- Source line 55: `df[(df.Year >= lo) & (df.Year <= hi)]`. -/
def yearFiltered (df : List Row) (lo hi : Int) : List Row :=
  df.filter (fun r => decide (lo ≤ r.year) && decide (r.year ≤ hi))

/-- Source lines 55-60: the year-range mask followed by the optional
term equality mask chosen by the radio button. -/
def df_filtered (df : List Row) (s : FilterSpec) : List Row :=
  let byYear := yearFiltered df s.lo s.hi
  match s.termOpt with
  | TermOption.todos => byYear
  | TermOption.spring => byYear.filter (fun r => r.term == Term.Spring)
  | TermOption.fall => byYear.filter (fun r => r.term == Term.Fall)

/-- Pandas column mean as a rational: sum of the column over row count. -/
def mean (l : List ℚ) : ℚ := l.sum / (l.length : ℚ)

/-- Column sums of the filtered view. -/
def applicationsSum (v : List Row) : Nat := (v.map Row.applications).sum

def admittedSum (v : List Row) : Nat := (v.map Row.admitted).sum

def enrolledSum (v : List Row) : Nat := (v.map Row.enrolled).sum

def retentionMean (v : List Row) : ℚ := mean (v.map Row.retention)

def satisfactionMean (v : List Row) : ℚ := mean (v.map Row.satisfaction)

/-- Source line 108: `Admitted.sum() / Applications.sum() * 100` with no
zero guard; numpy returns NaN (0/0) or inf there, embedded as `none`. -/
def avg_admission_rate (v : List Row) : Option ℚ :=
  if applicationsSum v = 0 then none
  else some ((admittedSum v : ℚ) / (applicationsSum v : ℚ) * 100)

/-- Source line 409: `(total_admitted / total_apps * 100) if total_apps > 0 else 0`. -/
def admission_rate (v : List Row) : ℚ :=
  if 0 < applicationsSum v then (admittedSum v : ℚ) / (applicationsSum v : ℚ) * 100 else 0

/-- Source line 416: `(total_enrolled / total_admitted * 100) if total_admitted > 0 else 0`. -/
def yield_rate (v : List Row) : ℚ :=
  if 0 < admittedSum v then (enrolledSum v : ℚ) / (admittedSum v : ℚ) * 100 else 0

/-- Ascending duplicate-free year keys: pandas `groupby('Year')` with the
default `sort=True` emits one group per distinct key, keys ascending. -/
def sortedUniqueYears (v : List Row) : List Int :=
  List.insertionSort (· ≤ ·) (v.map Row.year).dedup

/-- One output row of `df_yearly` (source lines 140-146). -/
structure YearAgg where
  year : Int
  retentionMean : ℚ
  satisfactionMean : ℚ
  enrolledSum : Nat
  applicationsSum : Nat
  admittedSum : Nat
deriving DecidableEq, Repr

/-- Source lines 140-146: `df_filtered.groupby('Year').agg({...})`. -/
def df_yearly (v : List Row) : List YearAgg :=
  (sortedUniqueYears v).map (fun y =>
    let g := v.filter (fun r => r.year == y)
    { year := y
      retentionMean := retentionMean g
      satisfactionMean := satisfactionMean g
      enrolledSum := enrolledSum g
      applicationsSum := applicationsSum g
      admittedSum := admittedSum g })

/-- Group keys of `groupby('Term')`: pandas sorts the string keys, and
the string `Fall` sorts before `Spring`, so Fall precedes Spring
whenever both occur in the view. -/
def termKeys (v : List Row) : List Term :=
  (if v.any (fun r => r.term == Term.Fall) then [Term.Fall] else []) ++
  (if v.any (fun r => r.term == Term.Spring) then [Term.Spring] else [])

/-- One output row of `df_term` (source lines 243-249). -/
structure TermAgg where
  term : Term
  retentionMean : ℚ
  satisfactionMean : ℚ
  enrolledSum : Nat
  applicationsSum : Nat
  admittedSum : Nat
deriving DecidableEq, Repr

/-- Source lines 243-249: `df_filtered.groupby('Term').agg({...})`. -/
def df_term (v : List Row) : List TermAgg :=
  (termKeys v).map (fun t =>
    let g := v.filter (fun r => r.term == t)
    { term := t
      retentionMean := retentionMean g
      satisfactionMean := satisfactionMean g
      enrolledSum := enrolledSum g
      applicationsSum := applicationsSum g
      admittedSum := admittedSum g })

/-- Per-department totals of `dept_data` (source lines 306-314). -/
def engineeringSum (v : List Row) : Nat := (v.map Row.engineering).sum

def businessSum (v : List Row) : Nat := (v.map Row.business).sum

def artsSum (v : List Row) : Nat := (v.map Row.arts).sum

def scienceSum (v : List Row) : Nat := (v.map Row.science).sum

/-- Sum of the four `Total Matriculados` entries of `dept_data`. -/
def deptTotalsSum (v : List Row) : Nat :=
  engineeringSum v + businessSum v + artsSum v + scienceSum v

/-- Pandas `Series.is_monotonic_increasing`: non-strict, every element
at most the next one (vacuously true on empty and singleton series). -/
def isMonotonicIncreasing : List ℚ → Bool
  | [] => true
  | [_] => true
  | x :: y :: rest => decide (x ≤ y) && isMonotonicIncreasing (y :: rest)

/-- The qualitative label each of the three summary bullets picks
(source lines 462-464): `growing` stands for the positive wording
(Crecimiento / Mejora continua / Aumento sostenido), `fluctuating`
for the other branch. -/
inductive TrendLabel where
  | growing : TrendLabel
  | fluctuating : TrendLabel
deriving DecidableEq, Repr

/-- Label selection of source lines 462-464. -/
def trendOf (s : List ℚ) : TrendLabel :=
  if isMonotonicIncreasing s then TrendLabel.growing else TrendLabel.fluctuating

/-- Source line 462: `df_filtered.groupby('Year')['Enrolled'].sum()`. -/
def yearEnrolledSeries (v : List Row) : List ℚ :=
  (sortedUniqueYears v).map (fun y => (enrolledSum (v.filter (fun r => r.year == y)) : ℚ))

/-- Source line 463: `groupby('Year')['Retention Rate'].mean()`. -/
def yearRetentionSeries (v : List Row) : List ℚ :=
  (sortedUniqueYears v).map (fun y => retentionMean (v.filter (fun r => r.year == y)))

/-- Source line 464: `groupby('Year')['Student Satisfaction'].mean()`. -/
def yearSatisfactionSeries (v : List Row) : List ℚ :=
  (sortedUniqueYears v).map (fun y => satisfactionMean (v.filter (fun r => r.year == y)))

/-- Everything the page computes once the view is non-empty: the four
KPI metrics with their deltas, the grouped aggregates, the summary-tab
guarded ratios, the three trend labels, and the rows behind the data
table and the CSV download button. -/
structure Dashboard where
  avgRetention : ℚ
  retentionChange : ℚ
  avgSatisfaction : ℚ
  satisfactionChange : ℚ
  totalEnrolled : Nat
  enrolledChange : Int
  avgAdmissionRate : Option ℚ
  yearly : List YearAgg
  byTerm : List TermAgg
  deptEngineering : Nat
  deptBusiness : Nat
  deptArts : Nat
  deptScience : Nat
  admissionRate : ℚ
  yieldRate : ℚ
  enrolledTrend : TrendLabel
  retentionTrend : TrendLabel
  satisfactionTrend : TrendLabel
  csvRows : List Row
deriving DecidableEq, Repr

/-- One render cycle: either the empty-state warning of lines 68-70
followed by `st.stop()`, or the fully computed page. -/
inductive RenderResult where
  | emptyWarning : RenderResult
  | report : Dashboard → RenderResult
deriving DecidableEq, Repr

/-- The whole script as a function of the cached dataset and the
sidebar state: filter (lines 55-60), guard (lines 68-70), then all
derived aggregates of the four tabs. -/
def render (df : List Row) (s : FilterSpec) : RenderResult :=
  let v := df_filtered df s
  if v.isEmpty then RenderResult.emptyWarning
  else
    RenderResult.report
      { avgRetention := retentionMean v
        retentionChange := retentionMean v - retentionMean df
        avgSatisfaction := satisfactionMean v
        satisfactionChange := satisfactionMean v - satisfactionMean df
        totalEnrolled := enrolledSum v
        enrolledChange := (enrolledSum v : Int) - (enrolledSum df : Int)
        avgAdmissionRate := avg_admission_rate v
        yearly := df_yearly v
        byTerm := df_term v
        deptEngineering := engineeringSum v
        deptBusiness := businessSum v
        deptArts := artsSum v
        deptScience := scienceSum v
        admissionRate := admission_rate v
        yieldRate := yield_rate v
        enrolledTrend := trendOf (yearEnrolledSeries v)
        retentionTrend := trendOf (yearRetentionSeries v)
        satisfactionTrend := trendOf (yearSatisfactionSeries v)
        csvRows := v }

/-- Term-membership set induced by the radio button: `Todos` allows
both terms, the other two options allow exactly one. -/
def termAllowed (o : TermOption) (t : Term) : Bool :=
  match o with
  | TermOption.todos => true
  | TermOption.spring => t == Term.Spring
  | TermOption.fall => t == Term.Fall

/-- A series is monotonically non-decreasing: every earlier entry is at
most every later one (ties allowed). -/
def monotoneNonDecr (l : List ℚ) : Prop :=
  ∀ i j : Fin l.length, (i : ℕ) ≤ (j : ℕ) → l.get i ≤ l.get j

/-- Order on term keys matching the lexicographic order of the column
strings: `Fall` sorts before `Spring`. -/
def termLe (a b : Term) : Prop := a = Term.Fall ∨ b = Term.Spring

/-- Follows the spec's words only (first-seen Term order): the distinct
terms in order of first appearance, for comparison with the sorted
group-key order that `df_term` actually uses. -/
def firstSeenTerms : List Term → List Term
  | [] => []
  | t :: ts => t :: (firstSeenTerms ts).filter (fun u => u != t)

/-- The three change indicators of the rendered page, when it rendered. -/
def deltas : RenderResult → Option (ℚ × ℚ × Int)
  | RenderResult.emptyWarning => none
  | RenderResult.report d => some (d.retentionChange, d.satisfactionChange, d.enrolledChange)

/-- First row of the spec's two-row scenario. -/
def row2020 : Row :=
  { year := 2020, term := Term.Spring, applications := 100, admitted := 50,
    enrolled := 40, retention := 90, satisfaction := 85,
    engineering := 20, business := 10, arts := 5, science := 5 }

/-- Second row of the spec's two-row scenario. -/
def row2021 : Row :=
  { year := 2021, term := Term.Fall, applications := 200, admitted := 100,
    enrolled := 90, retention := 92, satisfaction := 88,
    engineering := 40, business := 20, arts := 15, science := 15 }

/-- The spec's two-row scenario dataset. -/
def sampleData : List Row := [row2020, row2021]

/-- Filter state selecting years 2020-2021, both terms, all departments. -/
def fullSpec : FilterSpec :=
  { lo := 2020, hi := 2021, termOpt := TermOption.todos,
    deptOpt := DeptOption.todosLosDepartamentos }

/-- A row whose counts are all zero, for the division-guard analysis. -/
def zeroRow : Row :=
  { year := 2020, term := Term.Spring, applications := 0, admitted := 0,
    enrolled := 0, retention := 90, satisfaction := 85,
    engineering := 0, business := 0, arts := 0, science := 0 }

/-- Filter state selecting exactly the year of `zeroRow`. -/
def zeroSpec : FilterSpec :=
  { lo := 2020, hi := 2020, termOpt := TermOption.todos,
    deptOpt := DeptOption.todosLosDepartamentos }

/-- C1: the filtered view is the subsequence of rows passing the
conjunction of the year-range predicate and the term-membership
predicate, for every department selection (the only dimensions the
code ever applies). -/
theorem filtered_is_and_of_predicates (df : List Row) (s : FilterSpec) :
    (df_filtered df s).Sublist df ∧
    df_filtered df s =
      df.filter (fun r =>
        (decide (s.lo ≤ r.year) && decide (r.year ≤ s.hi)) && termAllowed s.termOpt r.term) := by
  have h : df_filtered df s =
      df.filter (fun r =>
        (decide (s.lo ≤ r.year) && decide (r.year ≤ s.hi)) && termAllowed s.termOpt r.term) := by
    rcases s with ⟨lo, hi, t, d⟩
    cases t <;>
      simp [df_filtered, yearFiltered, termAllowed, List.filter_filter, Bool.and_comm]
  exact ⟨h ▸ List.filter_sublist df, h⟩

/-- C10: the year-range filter is inclusive at both ends: a row is in
the year-filtered view iff it is in the dataset and its year is within
the closed interval, and in particular rows whose year equals either
bound are retained. -/
theorem yearFilter_inclusive (df : List Row) (lo hi : Int) (r : Row) :
    (r ∈ yearFiltered df lo hi ↔ r ∈ df ∧ lo ≤ r.year ∧ r.year ≤ hi) ∧
    (r ∈ df → lo ≤ hi → (r.year = lo ∨ r.year = hi) → r ∈ yearFiltered df lo hi) := by
  constructor
  · simp [yearFiltered, List.mem_filter, and_assoc]
  · intro hmem hlh hbound
    simp only [yearFiltered, List.mem_filter, Bool.and_eq_true, decide_eq_true_eq]
    rcases hbound with h | h <;> rw [h] <;> exact ⟨hmem, by omega, by omega⟩

/-- C10 witness: the boundary rows of the scenario dataset are kept. -/
theorem yearFilter_inclusive_witness : row2020 ∈ yearFiltered sampleData 2020 2021 :=
  (yearFilter_inclusive sampleData 2020 2021 row2020).2 (by decide) (by decide)
    (Or.inl (by decide))

/-- C9: two runs differing only in the department selection render the
same page: same filtered view, same KPIs, aggregates, trend labels and
CSV rows — the department selectbox is read but never used. -/
theorem dept_selection_noninterference (df : List Row) (lo hi : Int)
    (t : TermOption) (d1 d2 : DeptOption) :
    render df { lo := lo, hi := hi, termOpt := t, deptOpt := d1 } =
      render df { lo := lo, hi := hi, termOpt := t, deptOpt := d2 } := by
  cases t <;> rfl

/-- C3: the page short-circuits to the empty-state warning exactly when
the filtered view is empty, so no aggregate of the report is computed
there. -/
theorem empty_view_short_circuits (df : List Row) (s : FilterSpec) :
    render df s = RenderResult.emptyWarning ↔ df_filtered df s = [] := by
  simp only [render]
  cases h : (df_filtered df s).isEmpty with
  | true => simp [List.isEmpty_iff.mp h]
  | false =>
      simp only [Bool.false_eq_true, if_false]
      constructor
      · intro hc; exact absurd hc (by simp)
      · intro hc; rw [hc] at h; simp at h

/-- The pairwise-adjacent check of `isMonotonicIncreasing` is the
chain of `≤` along the list. -/
theorem isMonotonicIncreasing_iff_chain (l : List ℚ) :
    isMonotonicIncreasing l = true ↔ List.Chain' (· ≤ ·) l := by
  induction l with
  | nil => simp [isMonotonicIncreasing]
  | cons x xs ih =>
      cases xs with
      | nil => simp [isMonotonicIncreasing]
      | cons y rest =>
          rw [isMonotonicIncreasing, List.chain'_cons, Bool.and_eq_true, decide_eq_true_eq, ih]

/-- The pairwise-adjacent check holds exactly when the whole series is
monotonically non-decreasing in the global, ties-allowed sense. -/
theorem isMonotonicIncreasing_iff_mono (l : List ℚ) :
    isMonotonicIncreasing l = true ↔ monotoneNonDecr l := by
  rw [isMonotonicIncreasing_iff_chain, List.chain'_iff_pairwise, List.pairwise_iff_get]
  constructor
  · intro h i j hij
    rcases Nat.lt_or_ge (i : ℕ) (j : ℕ) with hlt | hge
    · exact h i j hlt
    · have : i = j := Fin.ext (Nat.le_antisymm hij hge)
      rw [this]
  · intro h i j hij
    exact h i j (Nat.le_of_lt hij)

/-- The label is the positive one exactly when the series is
monotonically non-decreasing. -/
theorem trendOf_growing_iff (l : List ℚ) :
    trendOf l = TrendLabel.growing ↔ monotoneNonDecr l := by
  rw [← isMonotonicIncreasing_iff_mono]
  unfold trendOf
  cases h : isMonotonicIncreasing l <;> simp [h]

/-- C5: on any non-empty filtered view, each of the three summary
bullets picks its growing/improving wording iff the corresponding
grouped-by-year series is monotonically non-decreasing (ties allowed),
and the fluctuating wording otherwise. -/
theorem trend_label_iff_monotone (df : List Row) (s : FilterSpec)
    (h : df_filtered df s ≠ []) :
    (trendOf (yearEnrolledSeries (df_filtered df s)) = TrendLabel.growing ↔
      monotoneNonDecr (yearEnrolledSeries (df_filtered df s))) ∧
    (trendOf (yearRetentionSeries (df_filtered df s)) = TrendLabel.growing ↔
      monotoneNonDecr (yearRetentionSeries (df_filtered df s))) ∧
    (trendOf (yearSatisfactionSeries (df_filtered df s)) = TrendLabel.growing ↔
      monotoneNonDecr (yearSatisfactionSeries (df_filtered df s))) :=
  ⟨trendOf_growing_iff _, trendOf_growing_iff _, trendOf_growing_iff _⟩

/-- C5 witness: the equivalence instantiated on the scenario dataset. -/
theorem trend_label_iff_monotone_witness :
    df_filtered sampleData fullSpec ≠ [] ∧
    ((trendOf (yearEnrolledSeries (df_filtered sampleData fullSpec)) = TrendLabel.growing ↔
      monotoneNonDecr (yearEnrolledSeries (df_filtered sampleData fullSpec))) ∧
    (trendOf (yearRetentionSeries (df_filtered sampleData fullSpec)) = TrendLabel.growing ↔
      monotoneNonDecr (yearRetentionSeries (df_filtered sampleData fullSpec))) ∧
    (trendOf (yearSatisfactionSeries (df_filtered sampleData fullSpec)) = TrendLabel.growing ↔
      monotoneNonDecr (yearSatisfactionSeries (df_filtered sampleData fullSpec)))) :=
  ⟨by decide, trend_label_iff_monotone sampleData fullSpec (by decide)⟩

/-- Year keys of the grouped-by-year table. -/
theorem df_yearly_years (v : List Row) :
    (df_yearly v).map YearAgg.year = sortedUniqueYears v := by
  unfold df_yearly
  rw [List.map_map]
  exact List.map_id'' (fun _ => rfl) _

/-- Term keys of the grouped-by-term table. -/
theorem df_term_terms (v : List Row) :
    (df_term v).map TermAgg.term = termKeys v := by
  unfold df_term
  rw [List.map_map]
  exact List.map_id'' (fun _ => rfl) _

/-- C6 counterexample: on the scenario view, whose rows appear with
Spring first, the grouped-by-term rows come out Fall first (sorted key
order), not in first-seen order. -/
theorem grouped_term_order_counterexample :
    df_filtered sampleData fullSpec ≠ [] ∧
    (df_term (df_filtered sampleData fullSpec)).map TermAgg.term ≠
      firstSeenTerms ((df_filtered sampleData fullSpec).map Row.term) := by
  decide

/-- C6 amended: grouped-by-year rows are in ascending year order, and
grouped-by-term rows are in ascending (lexicographic) term-key order —
Fall before Spring — containing exactly the terms present in the view. -/
theorem grouped_key_order (df : List Row) (s : FilterSpec)
    (h : df_filtered df s ≠ []) :
    ((df_yearly (df_filtered df s)).map YearAgg.year).Sorted (· ≤ ·) ∧
    ((df_term (df_filtered df s)).map TermAgg.term).Sorted termLe ∧
    (∀ t, t ∈ (df_term (df_filtered df s)).map TermAgg.term ↔
      t ∈ (df_filtered df s).map Row.term) := by
  refine ⟨?_, ?_, ?_⟩
  · rw [df_yearly_years]
    exact List.sorted_insertionSort _ _
  · rw [df_term_terms]
    unfold termKeys
    by_cases hf : (df_filtered df s).any (fun r => r.term == Term.Fall) <;>
      by_cases hs : (df_filtered df s).any (fun r => r.term == Term.Spring) <;>
        simp [hf, hs, List.Sorted, termLe]
  · intro t
    rw [df_term_terms]
    unfold termKeys
    cases t <;>
      by_cases hf : (df_filtered df s).any (fun r => r.term == Term.Fall) <;>
        by_cases hs : (df_filtered df s).any (fun r => r.term == Term.Spring) <;>
          simp_all [List.any_eq_true, List.mem_map]

/-- C6 witness: the key-order properties instantiated on the scenario. -/
theorem grouped_key_order_witness :
    df_filtered sampleData fullSpec ≠ [] ∧
    (((df_yearly (df_filtered sampleData fullSpec)).map YearAgg.year).Sorted (· ≤ ·) ∧
    ((df_term (df_filtered sampleData fullSpec)).map TermAgg.term).Sorted termLe ∧
    (∀ t, t ∈ (df_term (df_filtered sampleData fullSpec)).map TermAgg.term ↔
      t ∈ (df_filtered sampleData fullSpec).map Row.term)) :=
  ⟨by decide, grouped_key_order sampleData fullSpec (by decide)⟩

/-- Adding a row adds its department counts and its enrollment to the
respective totals, so the bound accumulates over the list. -/
theorem deptTotals_le_enrolled (v : List Row)
    (h : ∀ r ∈ v, r.engineering + r.business + r.arts + r.science ≤ r.enrolled) :
    deptTotalsSum v ≤ enrolledSum v := by
  induction v with
  | nil => simp [deptTotalsSum, engineeringSum, businessSum, artsSum, scienceSum, enrolledSum]
  | cons r rs ih =>
      have hr := h r (List.mem_cons_self r rs)
      have hrs := ih (fun x hx => h x (List.mem_cons_of_mem r hx))
      simp only [deptTotalsSum, engineeringSum, businessSum, artsSum, scienceSum,
        enrolledSum, List.map_cons, List.sum_cons] at *
      omega

/-- C7: when every row's four department counts sum to at most its
Enrolled value, the four `dept_data` totals over the filtered view sum
to at most the view's Enrolled sum. -/
theorem dept_totals_bounded (df : List Row) (s : FilterSpec)
    (h : ∀ r ∈ df_filtered df s,
      r.engineering + r.business + r.arts + r.science ≤ r.enrolled) :
    deptTotalsSum (df_filtered df s) ≤ enrolledSum (df_filtered df s) :=
  deptTotals_le_enrolled _ h

/-- C7 witness: the bound instantiated on the scenario dataset. -/
theorem dept_totals_bounded_witness :
    deptTotalsSum (df_filtered sampleData fullSpec) ≤
      enrolledSum (df_filtered sampleData fullSpec) :=
  dept_totals_bounded sampleData fullSpec (by decide)

/-- C8: whenever the page renders (non-empty view), each change
indicator is the KPI on the filtered view minus the same KPI on the
unfiltered dataset: retention mean, satisfaction mean, enrolled sum. -/
theorem delta_kpis (df : List Row) (s : FilterSpec)
    (h : df_filtered df s ≠ []) :
    deltas (render df s) =
      some (retentionMean (df_filtered df s) - retentionMean df,
            satisfactionMean (df_filtered df s) - satisfactionMean df,
            (enrolledSum (df_filtered df s) : Int) - (enrolledSum df : Int)) := by
  have hne : (df_filtered df s).isEmpty = false := by
    cases he : (df_filtered df s).isEmpty
    · rfl
    · exact absurd (List.isEmpty_iff.mp he) h
  simp [render, hne, deltas]

/-- C8 witness: the deltas on the scenario dataset with the full range. -/
theorem delta_kpis_witness :
    df_filtered sampleData fullSpec ≠ [] ∧
    deltas (render sampleData fullSpec) =
      some (retentionMean (df_filtered sampleData fullSpec) - retentionMean sampleData,
            satisfactionMean (df_filtered sampleData fullSpec) - satisfactionMean sampleData,
            (enrolledSum (df_filtered sampleData fullSpec) : Int) -
              (enrolledSum sampleData : Int)) :=
  ⟨by decide, delta_kpis sampleData fullSpec (by decide)⟩

/-- A percentage of the form numerator over denominator times 100 lies
in the unit percentage range when the numerator is at most the
denominator and the denominator is positive. -/
theorem ratio_bounds (a b : ℕ) (hab : a ≤ b) (hbpos : 0 < b) :
    0 ≤ (a : ℚ) / (b : ℚ) * 100 ∧ (a : ℚ) / (b : ℚ) * 100 ≤ 100 := by
  have hb' : (0 : ℚ) < (b : ℚ) := by exact_mod_cast hbpos
  constructor
  · positivity
  · have h1 : (a : ℚ) / (b : ℚ) ≤ 1 := (div_le_one hb').mpr (by exact_mod_cast hab)
    calc (a : ℚ) / (b : ℚ) * 100 ≤ 1 * 100 :=
          mul_le_mul_of_nonneg_right h1 (by norm_num)
      _ = 100 := one_mul 100

/-- The per-row ordering of the counting columns carries over to the
column sums. -/
theorem sums_ordered (v : List Row)
    (hb : ∀ r ∈ v, r.enrolled ≤ r.admitted ∧ r.admitted ≤ r.applications) :
    enrolledSum v ≤ admittedSum v ∧ admittedSum v ≤ applicationsSum v := by
  induction v with
  | nil => simp [enrolledSum, admittedSum, applicationsSum]
  | cons r rs ih =>
      have hr := hb r (List.mem_cons_self r rs)
      have hrs := ih (fun x hx => hb x (List.mem_cons_of_mem r hx))
      simp only [enrolledSum, admittedSum, applicationsSum, List.map_cons,
        List.sum_cons] at *
      omega

/-- C2 counterexample: a non-empty filtered view whose Applications sum
is zero, on which the headline admission-rate KPI of source line 108 is
not zero but the non-finite float of an unguarded zero division. -/
theorem unguarded_admission_rate_counterexample :
    df_filtered [zeroRow] zeroSpec = [zeroRow] ∧
    df_filtered [zeroRow] zeroSpec ≠ [] ∧
    applicationsSum (df_filtered [zeroRow] zeroSpec) = 0 ∧
    avg_admission_rate (df_filtered [zeroRow] zeroSpec) ≠ some 0 := by
  decide

/-- C2 amended: the summary-tab ratios (source lines 409 and 416) are
exactly 0 on a zero denominator and lie in the percentage range when
the denominator is positive and the per-row count bounds hold; the
headline KPI of line 108 has no guard and yields no finite value on a
zero Applications sum. -/
theorem ratio_guards (v : List Row)
    (hb : ∀ r ∈ v, r.enrolled ≤ r.admitted ∧ r.admitted ≤ r.applications) :
    (applicationsSum v = 0 → admission_rate v = 0 ∧ avg_admission_rate v = none) ∧
    (admittedSum v = 0 → yield_rate v = 0) ∧
    (0 < applicationsSum v → 0 ≤ admission_rate v ∧ admission_rate v ≤ 100) ∧
    (0 < admittedSum v → 0 ≤ yield_rate v ∧ yield_rate v ≤ 100) := by
  obtain ⟨hea, hap⟩ := sums_ordered v hb
  refine ⟨?_, ?_, ?_, ?_⟩
  · intro h0
    constructor
    · simp [admission_rate, h0]
    · simp [avg_admission_rate, h0]
  · intro h0
    simp [yield_rate, h0]
  · intro hp
    rw [admission_rate, if_pos hp]
    exact ratio_bounds _ _ hap hp
  · intro ha
    rw [yield_rate, if_pos ha]
    exact ratio_bounds _ _ hea ha

/-- C2 witness: the guard properties instantiated on the scenario data. -/
theorem ratio_guards_witness :
    (∀ r ∈ sampleData, r.enrolled ≤ r.admitted ∧ r.admitted ≤ r.applications) ∧
    ((applicationsSum sampleData = 0 →
        admission_rate sampleData = 0 ∧ avg_admission_rate sampleData = none) ∧
    (admittedSum sampleData = 0 → yield_rate sampleData = 0) ∧
    (0 < applicationsSum sampleData →
        0 ≤ admission_rate sampleData ∧ admission_rate sampleData ≤ 100) ∧
    (0 < admittedSum sampleData →
        0 ≤ yield_rate sampleData ∧ yield_rate sampleData ≤ 100)) :=
  ⟨by decide, ratio_guards sampleData (by decide)⟩

/-- C4: on the spec's two-row scenario with the full year range and
both terms, the filter keeps both rows, the admission rate is exactly
50, and the yield rate is 260/3, which is 86.7 to one decimal place. -/
theorem two_row_scenario :
    df_filtered sampleData fullSpec = [row2020, row2021] ∧
    avg_admission_rate (df_filtered sampleData fullSpec) = some 50 ∧
    admission_rate (df_filtered sampleData fullSpec) = 50 ∧
    yield_rate (df_filtered sampleData fullSpec) = 260 / 3 ∧
    |yield_rate (df_filtered sampleData fullSpec) - 867 / 10| < 1 / 20 := by
  have hv : df_filtered sampleData fullSpec = [row2020, row2021] := by decide
  have hp : applicationsSum (df_filtered sampleData fullSpec) = 300 := by decide
  have ha : admittedSum (df_filtered sampleData fullSpec) = 150 := by decide
  have he : enrolledSum (df_filtered sampleData fullSpec) = 130 := by decide
  refine ⟨hv, ?_, ?_, ?_, ?_⟩
  · rw [avg_admission_rate, hp, ha]
    norm_num
  · rw [admission_rate, hp, ha]
    norm_num
  · rw [yield_rate, ha, he]
    norm_num
  · rw [yield_rate, ha, he, abs_sub_lt_iff]
    norm_num
